import Mathlib

/-!
Verification of the hazard-scoring core of the dumper-truck safety system
(`backend/hazard_scoring.py`): the per-detection score engine
`calculate_hazard_score`, the per-frame aggregator `calculate_zone_risk`,
and the driver alert mapper `generate_alert_message`.

Python floats are modelled as rationals (the module only uses `+`, `*`, `/`,
`min`, comparisons and `round(_, 2)`); the Python builtin `round` is
round-half-to-even, modelled by `roundHalfEven`.  The JSON-like dicts the
module passes around are modelled as association lists of `String × PyVal`;
a `d[k]` access on a missing key (Python `KeyError`) and Python
`ZeroDivisionError` are modelled by `Option`/`Except` failure.
-/

namespace DumperSafety

/-- A value stored in one of the dicts of the module: a float (as `ℚ`) or a str. -/
inductive PyVal where
  | num (q : ℚ)
  | str (s : String)
deriving DecidableEq, Repr

/-- Lookup `d[k]` on a Python dict, modelled as first-match lookup in an
association list; `none` models `KeyError`. -/
def dictGet : List (String × PyVal) → String → Option PyVal
  | [], _ => none
  | (k, v) :: rest, key => if k = key then some v else dictGet rest key

/-- The `class_name.lower()` call (the class names in play are ASCII). -/
def pyLower (s : String) : String := String.mk (s.data.map Char.toLower)

/-- The Python builtin `round` to an integer: round half to even. -/
def roundHalfEven (q : ℚ) : ℤ :=
  if q - ⌊q⌋ < 1/2 then ⌊q⌋
  else if 1/2 < q - ⌊q⌋ then ⌊q⌋ + 1
  else if Even ⌊q⌋ then ⌊q⌋ else ⌊q⌋ + 1

/-- The Python `round(q, 2)`. -/
def round2 (q : ℚ) : ℚ := (roundHalfEven (q * 100) : ℚ) / 100

/-- The `class_multipliers` dict of `calculate_hazard_score`, together with
the `.get(_, 1.0)` default for unknown classes. -/
def class_multipliers (c : String) : ℚ :=
  match c with
  | "person" => 1.2
  | "human" => 1.2
  | "worker" => 1.2
  | "pedestrian" => 1.2
  | "child" => 1.3
  | "animal" => 1.1
  | "dog" => 1.1
  | "cat" => 1.1
  | "vehicle" => 0.9
  | "car" => 0.9
  | "truck" => 0.9
  | "bicycle" => 1.0
  | "motorcycle" => 1.0
  | _ => 1.0

/-- The `base_score` of `calculate_hazard_score`:
`min(size_ratio*700 + bottom_position*30, 100)` with
`size_ratio = bbox_area/image_area`, `bottom_position = y2/image_height`,
`bbox_area = (x2-x1)*(y2-y1)` (no clamping of negative widths/heights). -/
def base_score (x1 y1 x2 y2 image_height image_width : ℚ) : ℚ :=
  min ((((x2 - x1) * (y2 - y1)) / (image_height * image_width)) * 700
        + (y2 / image_height) * 30) 100

/-- The `final_score = min(base_score * multiplier, 100)` value (before rounding). -/
def final_score (x1 y1 x2 y2 image_height image_width : ℚ)
    (class_name : String) : ℚ :=
  min (base_score x1 y1 x2 y2 image_height image_width
        * class_multipliers (pyLower class_name)) 100

/-- The `hazard_level` chosen by the `if/elif` chain on `final_score`. -/
def hazard_level (fs : ℚ) : String :=
  if fs ≥ 80 then "CRITICAL"
  else if fs ≥ 60 then "HIGH"
  else if fs ≥ 40 then "MEDIUM"
  else "LOW"

/-- The `estimated_distance` chosen by the same `if/elif` chain. -/
def distance_of (fs : ℚ) : String :=
  if fs ≥ 80 then "0-2m"
  else if fs ≥ 60 then "2-5m"
  else if fs ≥ 40 then "5-8m"
  else "8m+"

/-- The `color_code` chosen by the same `if/elif` chain. -/
def color_of (fs : ℚ) : String :=
  if fs ≥ 80 then "#FF0000"
  else if fs ≥ 60 then "#FF6B00"
  else if fs ≥ 40 then "#FFD700"
  else "#00FF00"

/-- The `action` chosen by the same `if/elif` chain. -/
def action_of (fs : ℚ) : String :=
  if fs ≥ 80 then "STOP IMMEDIATELY"
  else if fs ≥ 60 then "PROCEED WITH CAUTION"
  else if fs ≥ 40 then "MONITOR CLOSELY"
  else "SAFE TO PROCEED"

/-- The dict returned by `calculate_hazard_score`, with its Python keys
`score, level, estimated_distance, color_code, recommended_action, priority`
as named fields (see `hazard_record_dict` for the literal key strings). -/
structure HazardRecord where
  score : ℚ
  level : String
  estimated_distance : String
  color_code : String
  recommended_action : String
  priority : ℚ
deriving DecidableEq, Repr

/-- The function `calculate_hazard_score(bbox, image_shape, class_name)` of
`hazard_scoring.py`.  `bbox = (x1, y1, x2, y2)`, `image_shape = (height,
width)` (the Python code drops the channel component with `[:2]`).
`none` models the `ZeroDivisionError` raised by `bbox_area / image_area`
when `image_area == 0`. -/
def calculate_hazard_score :
    ℚ × ℚ × ℚ × ℚ → ℚ × ℚ → String → Option HazardRecord
  | (x1, y1, x2, y2), (image_height, image_width), class_name =>
    if image_height * image_width = 0 then none
    else
      let fs := final_score x1 y1 x2 y2 image_height image_width class_name
      some ⟨round2 fs, hazard_level fs, distance_of fs, color_of fs,
            action_of fs, class_multipliers (pyLower class_name)⟩

/-- The literal dict built by the `return` of `calculate_hazard_score`
(lines 80–87): note the score is stored under the key `"score"`. -/
def hazard_record_dict (r : HazardRecord) : List (String × PyVal) :=
  [("score", .num r.score),
   ("level", .str r.level),
   ("estimated_distance", .str r.estimated_distance),
   ("color_code", .str r.color_code),
   ("recommended_action", .str r.recommended_action),
   ("priority", .num r.priority)]

/-- The `d["hazard_score"]` access performed by `calculate_zone_risk` on one
detection dict: `KeyError` when the key is absent, `TypeError` when the
stored value is a str (Python cannot compare `str` with `int`). -/
def get_hazard_score (d : List (String × PyVal)) : Except String ℚ :=
  match dictGet d "hazard_score" with
  | none => .error "KeyError: hazard_score"
  | some (.str _) => .error "TypeError: str and int comparison"
  | some (.num q) => .ok q

/-- Reading `d["hazard_score"]` off every detection, in order, failing at
the first bad dict (as the generator expressions of `calculate_zone_risk`
would). -/
def get_scores : List (List (String × PyVal)) → Except String (List ℚ)
  | [] => .ok []
  | d :: ds =>
    match get_hazard_score d, get_scores ds with
    | .error e, _ => .error e
    | .ok _, .error e => .error e
    | .ok s, .ok rest => .ok (s :: rest)

/-- The function `calculate_zone_risk(detections, image_shape)` of `hazard_scoring.py`.
Empty input returns the fixed SAFE dict; otherwise the per-bucket counts,
`max(...)`, overall risk and recommendation are computed from each
record entry `"hazard_score"`.  The `image_shape` argument is unused
by the Python body. -/
def calculate_zone_risk (detections : List (List (String × PyVal)))
    (image_shape : ℚ × ℚ) : Except String (List (String × PyVal)) :=
  if detections.isEmpty then
    .ok [("overall_risk", .str "SAFE"),
         ("max_hazard_score", .num 0),
         ("critical_objects", .num 0),
         ("high_priority_objects", .num 0),
         ("recommendation", .str "No objects detected. Safe to proceed.")]
  else
    match get_scores detections with
    | .error e => .error e
    | .ok scores =>
      let critical_count := scores.countP (fun s => decide (80 ≤ s))
      let high_count := scores.countP (fun s => decide (60 ≤ s ∧ s < 80))
      let medium_count := scores.countP (fun s => decide (40 ≤ s ∧ s < 60))
      match scores with
      | [] => .error "max() arg is an empty sequence"
      | s₀ :: srest =>
        let max_hazard := srest.foldl max s₀
        let overall_risk :=
          if 0 < critical_count then "CRITICAL"
          else if 0 < high_count then "HIGH"
          else if 0 < medium_count then "MEDIUM"
          else "LOW"
        let recommendation :=
          if 0 < critical_count then
            s!"STOP! {critical_count} object(s) in critical zone (0-2m)"
          else if 0 < high_count then
            s!"CAUTION: {high_count} object(s) in high-risk zone (2-5m)"
          else if 0 < medium_count then
            s!"MONITOR: {medium_count} object(s) detected (5-8m)"
          else "Objects detected at safe distance (8m+)"
        .ok [("overall_risk", .str overall_risk),
             ("max_hazard_score", .num (round2 max_hazard)),
             ("critical_objects", .num (critical_count : ℚ)),
             ("high_risk_objects", .num (high_count : ℚ)),
             ("medium_risk_objects", .num (medium_count : ℚ)),
             ("total_objects", .num (detections.length : ℚ)),
             ("recommendation", .str recommendation)]

/-- The `alerts` dict of `generate_alert_message` with its `.get(_,
"Status unknown")` default. -/
def alert_for (risk_level : String) : String :=
  if risk_level = "CRITICAL" then
    "⚠️ CRITICAL ALERT: Object detected in immediate vicinity! STOP DUMPING!"
  else if risk_level = "HIGH" then
    "⚠️ HIGH RISK: Object approaching danger zone. Proceed with extreme caution."
  else if risk_level = "MEDIUM" then
    "⚡ CAUTION: Object detected nearby. Monitor before dumping."
  else if risk_level = "LOW" then
    "✓ LOW RISK: Area monitored. Safe to proceed."
  else if risk_level = "SAFE" then
    "✓ SAFE: No objects detected in monitoring zones."
  else "Status unknown"

/-- The function `generate_alert_message(zone_risk)` of `hazard_scoring.py`: reads
`zone_risk["overall_risk"]` (a `KeyError` if absent) and looks it up in the
`alerts` dict; a non-str value never matches a str key, so it also falls to
the `"Status unknown"` default. -/
def generate_alert_message (zone_risk : List (String × PyVal)) :
    Except String String :=
  match dictGet zone_risk "overall_risk" with
  | none => .error "KeyError: overall_risk"
  | some (.num _) => .ok "Status unknown"
  | some (.str s) => .ok (alert_for s)

/-- Analysis helper: the numeric `"hazard_score"` entry of a well-formed
detection dict (0 for ill-formed ones; only used under a well-formedness
hypothesis). -/
def score_of (d : List (String × PyVal)) : ℚ :=
  match get_hazard_score d with
  | .ok q => q
  | .error _ => 0

/-! ### Helper lemmas -/

theorem roundHalfEven_bounds (q : ℚ) :
    q - 1/2 ≤ (roundHalfEven q : ℚ) ∧ (roundHalfEven q : ℚ) ≤ q + 1/2 := by
  have h1 : (⌊q⌋ : ℚ) ≤ q := Int.floor_le q
  have h2 : q < ⌊q⌋ + 1 := Int.lt_floor_add_one q
  unfold roundHalfEven
  split_ifs <;> constructor <;> push_cast <;> linarith

theorem roundHalfEven_mono {q r : ℚ} (h : q ≤ r) :
    roundHalfEven q ≤ roundHalfEven r := by
  have hf : ⌊q⌋ ≤ ⌊r⌋ := Int.floor_le_floor h
  rcases eq_or_lt_of_le hf with heq | hlt
  · have h1 : (⌊q⌋ : ℚ) ≤ q := Int.floor_le q
    unfold roundHalfEven
    rw [heq]
    have hqr : q - (⌊r⌋ : ℚ) ≤ r - (⌊r⌋ : ℚ) := by linarith
    split_ifs <;> first | omega | (exfalso; linarith)
  · have hq : roundHalfEven q ≤ ⌊q⌋ + 1 := by
      unfold roundHalfEven; split_ifs <;> omega
    have hr : ⌊r⌋ ≤ roundHalfEven r := by
      unfold roundHalfEven; split_ifs <;> omega
    omega

theorem round2_mono {q r : ℚ} (h : q ≤ r) : round2 q ≤ round2 r := by
  unfold round2
  have := roundHalfEven_mono (mul_le_mul_of_nonneg_right h (by norm_num :
    (0:ℚ) ≤ 100))
  have hc : (roundHalfEven (q * 100) : ℚ) ≤ (roundHalfEven (r * 100) : ℚ) := by
    exact_mod_cast this
  linarith

theorem round2_bounds {q : ℚ} (h0 : 0 ≤ q) (h100 : q ≤ 100) :
    0 ≤ round2 q ∧ round2 q ≤ 100 := by
  obtain ⟨hl, hr⟩ := roundHalfEven_bounds (q * 100)
  have hge : 0 ≤ roundHalfEven (q * 100) := by
    by_contra hneg
    push_neg at hneg
    have h1 : roundHalfEven (q * 100) ≤ -1 := by omega
    have h2 : (roundHalfEven (q * 100) : ℚ) ≤ -1 := by exact_mod_cast h1
    linarith
  have hle : roundHalfEven (q * 100) ≤ 10000 := by
    by_contra hbig
    push_neg at hbig
    have h1 : (10001 : ℤ) ≤ roundHalfEven (q * 100) := by omega
    have h2 : (10001 : ℚ) ≤ (roundHalfEven (q * 100) : ℚ) := by exact_mod_cast h1
    linarith
  have hgeq : (0 : ℚ) ≤ (roundHalfEven (q * 100) : ℚ) := by exact_mod_cast hge
  have hleq : (roundHalfEven (q * 100) : ℚ) ≤ 10000 := by exact_mod_cast hle
  unfold round2
  constructor
  · positivity
  · rw [div_le_iff₀ (by norm_num : (0:ℚ) < 100)]
    linarith

theorem roundHalfEven_eq_of_lt {q : ℚ} {n : ℤ} (h1 : (n:ℚ) ≤ q)
    (h2 : q < n + 1/2) : roundHalfEven q = n := by
  have hf : ⌊q⌋ = n := Int.floor_eq_iff.mpr ⟨h1, by linarith⟩
  have hc : q - (n:ℚ) < 1/2 := by linarith
  unfold roundHalfEven
  rw [hf, if_pos hc]

theorem roundHalfEven_eq_of_gt {q : ℚ} {n : ℤ} (h1 : (n:ℚ) + 1/2 < q)
    (h2 : q < n + 1) : roundHalfEven q = n + 1 := by
  have hf : ⌊q⌋ = n := Int.floor_eq_iff.mpr ⟨by linarith, by linarith⟩
  have hc1 : ¬ (q - (n:ℚ) < 1/2) := by push_neg; linarith
  have hc2 : 1/2 < q - (n:ℚ) := by linarith
  unfold roundHalfEven
  rw [hf, if_neg hc1, if_pos hc2]

theorem class_multipliers_pos (c : String) : 0 < class_multipliers c := by
  unfold class_multipliers
  split <;> norm_num

theorem class_multipliers_le (c : String) : class_multipliers c ≤ 13/10 := by
  unfold class_multipliers
  split <;> norm_num

theorem final_score_bounds (x1 y1 x2 y2 ih iw : ℚ) (c : String)
    (hx : x1 ≤ x2) (hy : y1 ≤ y2) (hy2 : 0 ≤ y2) (hh : 0 < ih) (hw : 0 < iw) :
    0 ≤ final_score x1 y1 x2 y2 ih iw c ∧
      final_score x1 y1 x2 y2 ih iw c ≤ 100 := by
  have hm := class_multipliers_pos (pyLower c)
  have harea : 0 ≤ ((x2 - x1) * (y2 - y1)) / (ih * iw) :=
    div_nonneg (mul_nonneg (by linarith) (by linarith)) (by positivity)
  have hbp : 0 ≤ y2 / ih := div_nonneg hy2 hh.le
  have hbase : 0 ≤ base_score x1 y1 x2 y2 ih iw := by
    unfold base_score
    exact le_min (by nlinarith) (by norm_num)
  unfold final_score
  exact ⟨le_min (by nlinarith) (by norm_num), min_le_right _ _⟩

theorem get_scores_eq_map {ds : List (List (String × PyVal))}
    (h : ∀ d ∈ ds, (get_hazard_score d).isOk = true) :
    get_scores ds = .ok (ds.map score_of) := by
  induction ds with
  | nil => rfl
  | cons d rest ih =>
    have hd := h d (by simp)
    have hds := ih (fun x hx => h x (by simp [hx]))
    cases hgd : get_hazard_score d with
    | error e => rw [hgd] at hd; simp [Except.isOk, Except.toBool] at hd
    | ok q => simp [get_scores, hgd, hds, score_of]

theorem get_scores_length {ds : List (List (String × PyVal))} {l : List ℚ}
    (h : get_scores ds = .ok l) : l.length = ds.length := by
  induction ds generalizing l with
  | nil => simp [get_scores] at h; simp [← h]
  | cons d rest ih =>
    cases hgd : get_hazard_score d with
    | error e => simp [get_scores, hgd] at h
    | ok q =>
      cases hgs : get_scores rest with
      | error e => simp [get_scores, hgd, hgs] at h
      | ok l' =>
        simp [get_scores, hgd, hgs] at h
        simp [← h, ih hgs]

theorem foldl_max_le {l : List ℚ} : ∀ {a x : ℚ}, x ∈ a :: l → x ≤ l.foldl max a := by
  induction l with
  | nil =>
    intro a x hx
    simp at hx
    simp [hx]
  | cons b l ih =>
    intro a x hx
    simp only [List.foldl_cons]
    rcases List.mem_cons.mp hx with rfl | h
    · exact le_trans (le_max_left x b) (ih (List.mem_cons_self _ _))
    · rcases List.mem_cons.mp h with rfl | h2
      · exact le_trans (le_max_right a x) (ih (List.mem_cons_self _ _))
      · exact ih (List.mem_cons.mpr (Or.inr h2))

theorem foldl_max_mem (a : ℚ) (l : List ℚ) : l.foldl max a ∈ a :: l := by
  induction l generalizing a with
  | nil => simp
  | cons b l ih =>
    simp only [List.foldl_cons]
    rcases List.mem_cons.mp (ih (max a b)) with h | h
    · rw [h]
      rcases max_choice a b with hm | hm <;> rw [hm] <;> simp
    · simp [h]

theorem foldl_max_perm {a a' : ℚ} {l l' : List ℚ}
    (hp : (a :: l).Perm (a' :: l')) : l.foldl max a = l'.foldl max a' := by
  apply le_antisymm
  · exact foldl_max_le (hp.mem_iff.mp (foldl_max_mem a l))
  · exact foldl_max_le (hp.mem_iff.mpr (foldl_max_mem a' l'))

/-- Shape of `calculate_zone_risk` on a non-empty detection list whose
score extraction succeeds. -/
theorem zone_risk_cons_eq (d : List (String × PyVal))
    (ds' : List (List (String × PyVal))) (shape : ℚ × ℚ) (s0 : ℚ)
    (srest : List ℚ) (h : get_scores (d :: ds') = .ok (s0 :: srest)) :
    calculate_zone_risk (d :: ds') shape = .ok
      [("overall_risk", .str
          (if 0 < (s0 :: srest).countP (fun s => decide (80 ≤ s)) then
            "CRITICAL"
           else if 0 < (s0 :: srest).countP
              (fun s => decide (60 ≤ s ∧ s < 80)) then "HIGH"
           else if 0 < (s0 :: srest).countP
              (fun s => decide (40 ≤ s ∧ s < 60)) then "MEDIUM"
           else "LOW")),
       ("max_hazard_score", .num (round2 (srest.foldl max s0))),
       ("critical_objects",
          .num ((s0 :: srest).countP (fun s => decide (80 ≤ s)) : ℚ)),
       ("high_risk_objects",
          .num ((s0 :: srest).countP (fun s => decide (60 ≤ s ∧ s < 80)) : ℚ)),
       ("medium_risk_objects",
          .num ((s0 :: srest).countP (fun s => decide (40 ≤ s ∧ s < 60)) : ℚ)),
       ("total_objects", .num ((d :: ds').length : ℚ)),
       ("recommendation", .str
          (if 0 < (s0 :: srest).countP (fun s => decide (80 ≤ s)) then
            s!"STOP! {(s0 :: srest).countP (fun s => decide (80 ≤ s))} object(s) in critical zone (0-2m)"
           else if 0 < (s0 :: srest).countP
              (fun s => decide (60 ≤ s ∧ s < 80)) then
            s!"CAUTION: {(s0 :: srest).countP (fun s => decide (60 ≤ s ∧ s < 80))} object(s) in high-risk zone (2-5m)"
           else if 0 < (s0 :: srest).countP
              (fun s => decide (40 ≤ s ∧ s < 60)) then
            s!"MONITOR: {(s0 :: srest).countP (fun s => decide (40 ≤ s ∧ s < 60))} object(s) detected (5-8m)"
           else "Objects detected at safe distance (8m+)"))] := by
  simp only [calculate_zone_risk, List.isEmpty_cons, Bool.false_eq_true,
    if_false, h]

/-! ### Claim theorems -/

/-- C1: for every collection of detection records readable by
`calculate_zone_risk`, the returned `overall_risk` is SAFE exactly when the
collection is empty (with `max_hazard_score` 0 in that case); for every
non-empty collection it is the highest-severity level among
CRITICAL > HIGH > MEDIUM > LOW whose threshold bucket has a count greater
than zero, with LOW when no score of a record reaches 40. -/
theorem zone_risk_overall_classification (ds : List (List (String × PyVal)))
    (shape : ℚ × ℚ) (scores : List ℚ) (h : get_scores ds = .ok scores) :
    ∃ zr, calculate_zone_risk ds shape = .ok zr ∧
      (dictGet zr "overall_risk" = some (.str "SAFE") ↔ ds = []) ∧
      (ds = [] → dictGet zr "max_hazard_score" = some (.num 0)) ∧
      (ds ≠ [] → dictGet zr "overall_risk" = some (.str
        (if 0 < scores.countP (fun s => decide (80 ≤ s)) then "CRITICAL"
         else if 0 < scores.countP (fun s => decide (60 ≤ s ∧ s < 80)) then
           "HIGH"
         else if 0 < scores.countP (fun s => decide (40 ≤ s ∧ s < 60)) then
           "MEDIUM"
         else "LOW"))) ∧
      (ds ≠ [] → (∀ s ∈ scores, s < 40) →
        dictGet zr "overall_risk" = some (.str "LOW")) := by
  cases ds with
  | nil =>
    simp only [get_scores] at h
    obtain rfl : scores = [] := by
      cases h
      rfl
    refine ⟨_, rfl, ?_, ?_, ?_, ?_⟩
    · simp [dictGet]
    · intro _
      simp [dictGet]
    · intro hne
      exact absurd rfl hne
    · intro hne _
      exact absurd rfl hne
  | cons d ds' =>
    have hlen := get_scores_length h
    obtain ⟨s0, srest, rfl⟩ : ∃ a l, scores = a :: l := by
      cases scores with
      | nil => simp at hlen
      | cons a l => exact ⟨a, l, rfl⟩
    have heq := zone_risk_cons_eq d ds' shape s0 srest h
    refine ⟨_, heq, ?_, ?_, ?_, ?_⟩
    · simp only [dictGet, if_pos]
      split_ifs <;> simp
    · intro hnil
      exact absurd hnil (List.cons_ne_nil d ds')
    · intro _
      simp only [dictGet, if_pos]
    · intro _ hall
      have hc1 : (s0 :: srest).countP (fun s => decide (80 ≤ s)) = 0 :=
        List.countP_eq_zero.mpr (fun s hs => by
          simp only [decide_eq_true_eq]
          push_neg
          linarith [hall s hs])
      have hc2 : (s0 :: srest).countP (fun s => decide (60 ≤ s ∧ s < 80)) = 0 :=
        List.countP_eq_zero.mpr (fun s hs => by
          simp only [decide_eq_true_eq, not_and]
          intro hcon
          linarith [hall s hs])
      have hc3 : (s0 :: srest).countP (fun s => decide (40 ≤ s ∧ s < 60)) = 0 :=
        List.countP_eq_zero.mpr (fun s hs => by
          simp only [decide_eq_true_eq, not_and]
          intro hcon
          linarith [hall s hs])
      simp only [dictGet, if_pos, hc1, hc2, hc3]
      simp

/-- Witness for C1: a single detection with hazard score 85 in the frame. -/
theorem zone_risk_overall_classification_witness :
    ∃ zr, calculate_zone_risk [[("hazard_score", PyVal.num 85)]] (100, 100)
        = .ok zr ∧
      (dictGet zr "overall_risk" = some (.str "SAFE") ↔
        [[("hazard_score", PyVal.num 85)]]
          = ([] : List (List (String × PyVal)))) ∧
      ([[("hazard_score", PyVal.num 85)]]
          = ([] : List (List (String × PyVal))) →
        dictGet zr "max_hazard_score" = some (.num 0)) ∧
      ([[("hazard_score", PyVal.num 85)]]
          ≠ ([] : List (List (String × PyVal))) →
        dictGet zr "overall_risk" = some (.str
        (if 0 < [(85:ℚ)].countP (fun s => decide (80 ≤ s)) then "CRITICAL"
         else if 0 < [(85:ℚ)].countP (fun s => decide (60 ≤ s ∧ s < 80)) then
           "HIGH"
         else if 0 < [(85:ℚ)].countP (fun s => decide (40 ≤ s ∧ s < 60)) then
           "MEDIUM"
         else "LOW"))) ∧
      ([[("hazard_score", PyVal.num 85)]]
          ≠ ([] : List (List (String × PyVal))) →
        (∀ s ∈ [(85:ℚ)], s < 40) →
        dictGet zr "overall_risk" = some (.str "LOW")) :=
  zone_risk_overall_classification [[("hazard_score", PyVal.num 85)]]
    (100, 100) [85] rfl

/-- C2: for every bounding box `(x1, y1, x2, y2)` with
`0 ≤ x1 ≤ x2 ≤ image_width` and `0 ≤ y1 ≤ y2 ≤ image_height`, every image
shape with positive area and every class name, `calculate_hazard_score`
succeeds and the `score` field of the returned record lies in `[0, 100]`. -/
theorem hazard_score_in_range (x1 y1 x2 y2 ih iw : ℚ) (c : String)
    (hx0 : 0 ≤ x1) (hx : x1 ≤ x2) (hxw : x2 ≤ iw)
    (hy0 : 0 ≤ y1) (hy : y1 ≤ y2) (hyh : y2 ≤ ih)
    (harea : 0 < ih * iw) :
    ∃ r, calculate_hazard_score (x1, y1, x2, y2) (ih, iw) c = some r ∧
      0 ≤ r.score ∧ r.score ≤ 100 := by
  have hiw0 : 0 ≤ iw := le_trans (le_trans hx0 hx) hxw
  have hw : 0 < iw := by
    rcases hiw0.lt_or_eq with h | h
    · exact h
    · exfalso; rw [← h] at harea; simp at harea
  have hh : 0 < ih := by
    by_contra hle
    push_neg at hle
    nlinarith
  have h0 : ih * iw ≠ 0 := ne_of_gt harea
  obtain ⟨hf0, hf100⟩ :=
    final_score_bounds x1 y1 x2 y2 ih iw c hx hy (le_trans hy0 hy) hh hw
  obtain ⟨hr0, hr100⟩ := round2_bounds hf0 hf100
  have heq : calculate_hazard_score (x1, y1, x2, y2) (ih, iw) c =
      some ⟨round2 (final_score x1 y1 x2 y2 ih iw c),
            hazard_level (final_score x1 y1 x2 y2 ih iw c),
            distance_of (final_score x1 y1 x2 y2 ih iw c),
            color_of (final_score x1 y1 x2 y2 ih iw c),
            action_of (final_score x1 y1 x2 y2 ih iw c),
            class_multipliers (pyLower c)⟩ := by
    simp [calculate_hazard_score, h0]
  exact ⟨_, heq, hr0, hr100⟩

/-- Witness for C2: the scenario given in the spec, bbox `(0,0,100,100)` in a
`1000×1000` image, class `"person"`. -/
theorem hazard_score_in_range_witness :
    ∃ r, calculate_hazard_score (0, 0, 100, 100) (1000, 1000) "person" = some r ∧
      0 ≤ r.score ∧ r.score ≤ 100 :=
  hazard_score_in_range 0 0 100 100 1000 1000 "person" (by norm_num)
    (by norm_num) (by norm_num) (by norm_num) (by norm_num) (by norm_num)
    (by norm_num)

/-- C6: for every bounding box and class name, a zero image area
(`height * width = 0`) makes `calculate_hazard_score` fail with the division
error and return no hazard record. -/
theorem zero_image_area_fails (bbox : ℚ × ℚ × ℚ × ℚ) (ih iw : ℚ) (c : String)
    (h : ih * iw = 0) :
    calculate_hazard_score bbox (ih, iw) c = none := by
  obtain ⟨x1, y1, x2, y2⟩ := bbox
  simp [calculate_hazard_score, h]

/-- Witness for C6 at a zero-height image. -/
theorem zero_image_area_fails_witness :
    calculate_hazard_score (0, 0, 10, 10) (0, 100) "person" = none :=
  zero_image_area_fails (0, 0, 10, 10) 0 100 "person" (by norm_num)

/-- C4: `calculate_hazard_score` looks up the lowercased class name in
exactly the table person/human/worker/pedestrian = 1.2, child = 1.3,
animal/dog/cat = 1.1, vehicle/car/truck = 0.9, bicycle/motorcycle = 1.0;
every class name outside the table gets the neutral multiplier 1.0, so an
unknown class like `"drone"` scores identically to `"bicycle"` or
`"motorcycle"` on the same bbox and image shape; the returned `priority`
field equals the multiplier used. -/
theorem class_multiplier_table :
    class_multipliers "person" = 1.2 ∧ class_multipliers "human" = 1.2 ∧
    class_multipliers "worker" = 1.2 ∧ class_multipliers "pedestrian" = 1.2 ∧
    class_multipliers "child" = 1.3 ∧ class_multipliers "animal" = 1.1 ∧
    class_multipliers "dog" = 1.1 ∧ class_multipliers "cat" = 1.1 ∧
    class_multipliers "vehicle" = 0.9 ∧ class_multipliers "car" = 0.9 ∧
    class_multipliers "truck" = 0.9 ∧ class_multipliers "bicycle" = 1.0 ∧
    class_multipliers "motorcycle" = 1.0 ∧
    (∀ c : String, c ∉ ["person", "human", "worker", "pedestrian", "child",
        "animal", "dog", "cat", "vehicle", "car", "truck", "bicycle",
        "motorcycle"] → class_multipliers c = 1.0) ∧
    (∀ (bbox : ℚ × ℚ × ℚ × ℚ) (shape : ℚ × ℚ),
        calculate_hazard_score bbox shape "drone"
          = calculate_hazard_score bbox shape "bicycle") ∧
    (∀ (bbox : ℚ × ℚ × ℚ × ℚ) (shape : ℚ × ℚ),
        calculate_hazard_score bbox shape "drone"
          = calculate_hazard_score bbox shape "motorcycle") ∧
    (∀ (bbox : ℚ × ℚ × ℚ × ℚ) (shape : ℚ × ℚ) (c : String) (r : HazardRecord),
        calculate_hazard_score bbox shape c = some r →
        r.priority = class_multipliers (pyLower c)) := by
  refine ⟨rfl, rfl, rfl, rfl, rfl, rfl, rfl, rfl, rfl, rfl, rfl, rfl, rfl,
    ?_, ?_, ?_, ?_⟩
  · intro c hc
    unfold class_multipliers
    split <;> simp_all
  · intro bbox shape
    obtain ⟨x1, y1, x2, y2⟩ := bbox
    obtain ⟨ih, iw⟩ := shape
    have h1 : pyLower "drone" = "drone" := by decide
    have h2 : pyLower "bicycle" = "bicycle" := by decide
    have h3 : class_multipliers "drone" = class_multipliers "bicycle" := rfl
    simp [calculate_hazard_score, final_score, h1, h2, h3]
  · intro bbox shape
    obtain ⟨x1, y1, x2, y2⟩ := bbox
    obtain ⟨ih, iw⟩ := shape
    have h1 : pyLower "drone" = "drone" := by decide
    have h2 : pyLower "motorcycle" = "motorcycle" := by decide
    have h3 : class_multipliers "drone" = class_multipliers "motorcycle" := rfl
    simp [calculate_hazard_score, final_score, h1, h2, h3]
  · intro bbox shape c r h
    obtain ⟨x1, y1, x2, y2⟩ := bbox
    obtain ⟨ih, iw⟩ := shape
    by_cases h0 : ih * iw = 0
    · simp [calculate_hazard_score, h0] at h
    · simp only [calculate_hazard_score, if_neg h0, Option.some.injEq] at h
      rw [← h]

/-- Witness for C4: `"drone"` is not in the table and gets 1.0, and the
`priority` field of a concrete call equals the multiplier used (1.2 for
`"person"`). -/
theorem class_multiplier_table_witness :
    class_multipliers "drone" = 1.0 ∧
      (1.2 : ℚ) = class_multipliers (pyLower "person") := by
  constructor
  · exact class_multiplier_table.2.2.2.2.2.2.2.2.2.2.2.2.2.1 "drone" (by decide)
  · have hl : pyLower "person" = "person" := by decide
    have hm : class_multipliers "person" = (1.2 : ℚ) := rfl
    have hfs : final_score 0 0 100 100 1000 1000 "person" = 12 := by
      unfold final_score base_score
      rw [hl, hm]
      norm_num [min_def]
    have h0 : ¬ ((1000:ℚ) * 1000 = 0) := by norm_num
    have hround : round2 (12 : ℚ) = 12 := by
      have h : roundHalfEven ((12:ℚ) * 100) = 1200 :=
        roundHalfEven_eq_of_lt (by norm_num) (by norm_num)
      unfold round2
      rw [h]
      norm_num
    have heq : calculate_hazard_score (0, 0, 100, 100) (1000, 1000) "person"
        = some ⟨12, "LOW", "8m+", "#00FF00", "SAFE TO PROCEED", 1.2⟩ := by
      simp only [calculate_hazard_score, if_neg h0, hfs]
      rw [hround]
      norm_num [hazard_level, distance_of, color_of, action_of, hl, hm]
    have := class_multiplier_table.2.2.2.2.2.2.2.2.2.2.2.2.2.2.2.2
      (0, 0, 100, 100) (1000, 1000) "person" _ heq
    simpa using this.symm

/-- C3 (amended): the returned `level` is determined by the PRE-ROUNDING
final score via the thresholds ≥80 / ≥60 / ≥40 with no gaps or overlaps,
and `estimated_distance` is the bucket mirroring the level.  The
biconditional with the returned (rounded) `score` field claimed by the spec
fails when rounding crosses a boundary — see the counterexample. -/
theorem hazard_level_unrounded_thresholds (x1 y1 x2 y2 ih iw : ℚ) (c : String)
    (h0 : ih * iw ≠ 0) :
    ∃ r, calculate_hazard_score (x1, y1, x2, y2) (ih, iw) c = some r ∧
      (r.level = "CRITICAL" ↔ 80 ≤ final_score x1 y1 x2 y2 ih iw c) ∧
      (r.level = "HIGH" ↔ 60 ≤ final_score x1 y1 x2 y2 ih iw c ∧
        final_score x1 y1 x2 y2 ih iw c < 80) ∧
      (r.level = "MEDIUM" ↔ 40 ≤ final_score x1 y1 x2 y2 ih iw c ∧
        final_score x1 y1 x2 y2 ih iw c < 60) ∧
      (r.level = "LOW" ↔ final_score x1 y1 x2 y2 ih iw c < 40) ∧
      (r.estimated_distance = "0-2m" ↔ r.level = "CRITICAL") ∧
      (r.estimated_distance = "2-5m" ↔ r.level = "HIGH") ∧
      (r.estimated_distance = "5-8m" ↔ r.level = "MEDIUM") ∧
      (r.estimated_distance = "8m+" ↔ r.level = "LOW") := by
  have heq : calculate_hazard_score (x1, y1, x2, y2) (ih, iw) c =
      some ⟨round2 (final_score x1 y1 x2 y2 ih iw c),
            hazard_level (final_score x1 y1 x2 y2 ih iw c),
            distance_of (final_score x1 y1 x2 y2 ih iw c),
            color_of (final_score x1 y1 x2 y2 ih iw c),
            action_of (final_score x1 y1 x2 y2 ih iw c),
            class_multipliers (pyLower c)⟩ := by
    simp [calculate_hazard_score, h0]
  refine ⟨_, heq, ?_⟩
  set fs := final_score x1 y1 x2 y2 ih iw c with hfs
  show (hazard_level fs = "CRITICAL" ↔ _) ∧ _
  unfold hazard_level distance_of
  split_ifs with hc hh hm <;> push_neg at * <;>
    refine ⟨?_, ?_, ?_, ?_, ?_, ?_, ?_, ?_⟩ <;>
    simp <;> first | linarith | (constructor <;> linarith) | (intro h; linarith)

/-- Witness for the amended C3 at the person scenario from the spec. -/
theorem hazard_level_unrounded_thresholds_witness :
    ∃ r, calculate_hazard_score (0, 0, 100, 100) (1000, 1000) "person" = some r ∧
      (r.level = "CRITICAL" ↔ 80 ≤ final_score 0 0 100 100 1000 1000 "person") ∧
      (r.level = "HIGH" ↔ 60 ≤ final_score 0 0 100 100 1000 1000 "person" ∧
        final_score 0 0 100 100 1000 1000 "person" < 80) ∧
      (r.level = "MEDIUM" ↔ 40 ≤ final_score 0 0 100 100 1000 1000 "person" ∧
        final_score 0 0 100 100 1000 1000 "person" < 60) ∧
      (r.level = "LOW" ↔ final_score 0 0 100 100 1000 1000 "person" < 40) ∧
      (r.estimated_distance = "0-2m" ↔ r.level = "CRITICAL") ∧
      (r.estimated_distance = "2-5m" ↔ r.level = "HIGH") ∧
      (r.estimated_distance = "5-8m" ↔ r.level = "MEDIUM") ∧
      (r.estimated_distance = "8m+" ↔ r.level = "LOW") :=
  hazard_level_unrounded_thresholds 0 0 100 100 1000 1000 "person" (by norm_num)

/-- C3 counterexample: at bbox `(0, 0, 10, 79.999)` in a `730×10` image with
an unknown class, the unrounded final score is 79.999, so the level is HIGH,
but `round(79.999, 2)` is 80.00: the record has `score = 80` and
`level = "HIGH"`, refuting `level = CRITICAL ⟺ score ≥ 80`. -/
theorem hazard_level_rounding_boundary_cex :
    calculate_hazard_score (0, 0, 10, 79999/1000) (730, 10) "drone"
        = some ⟨80, "HIGH", "2-5m", "#FF6B00", "PROCEED WITH CAUTION", 1⟩ ∧
    ¬ (∀ r : HazardRecord,
        calculate_hazard_score (0, 0, 10, 79999/1000) (730, 10) "drone"
          = some r →
        (r.level = "CRITICAL" ↔ 80 ≤ r.score)) := by
  have hl : pyLower "drone" = "drone" := by decide
  have hm : class_multipliers "drone" = (1.0 : ℚ) := rfl
  have hfs : final_score 0 0 10 (79999/1000) 730 10 "drone" = 79999/1000 := by
    unfold final_score base_score
    rw [hl, hm]
    norm_num [min_def]
  have hround : round2 (79999/1000 : ℚ) = 80 := by
    have h : roundHalfEven ((79999/1000:ℚ) * 100) = 7999 + 1 :=
      roundHalfEven_eq_of_gt (by norm_num) (by norm_num)
    unfold round2
    rw [h]
    norm_num
  have h0 : ¬ ((730:ℚ) * 10 = 0) := by norm_num
  have heq : calculate_hazard_score (0, 0, 10, 79999/1000) (730, 10) "drone"
      = some ⟨80, "HIGH", "2-5m", "#FF6B00", "PROCEED WITH CAUTION", 1⟩ := by
    simp only [calculate_hazard_score, if_neg h0, hfs]
    rw [hround]
    norm_num [hazard_level, distance_of, color_of, action_of, hl, hm]
  refine ⟨heq, fun hclaim => ?_⟩
  have h := hclaim _ heq
  simp at h

/-- C7 counterexample: the code does NOT clamp negative bbox dimensions.
The box `(10, 0, 0, 10)` (negative width) in a `100×100` image scores −4
(the signed area −100 enters the score), while the zero-area box with the
same `y2` scores 3: not the same score, refuting the
`max(0, x2-x1) * max(0, y2-y1)` claim. -/
theorem bbox_area_unclamped_cex :
    calculate_hazard_score (10, 0, 0, 10) (100, 100) "drone"
        = some ⟨-4, "LOW", "8m+", "#00FF00", "SAFE TO PROCEED", 1⟩ ∧
    calculate_hazard_score (0, 0, 0, 10) (100, 100) "drone"
        = some ⟨3, "LOW", "8m+", "#00FF00", "SAFE TO PROCEED", 1⟩ ∧
    calculate_hazard_score (10, 0, 0, 10) (100, 100) "drone"
      ≠ calculate_hazard_score (0, 0, 0, 10) (100, 100) "drone" := by
  have hl : pyLower "drone" = "drone" := by decide
  have hm : class_multipliers "drone" = (1.0 : ℚ) := rfl
  have h0 : ¬ ((100:ℚ) * 100 = 0) := by norm_num
  have hfs1 : final_score 10 0 0 10 100 100 "drone" = -4 := by
    unfold final_score base_score
    rw [hl, hm]
    norm_num [min_def]
  have hfs2 : final_score 0 0 0 10 100 100 "drone" = 3 := by
    unfold final_score base_score
    rw [hl, hm]
    norm_num [min_def]
  have hr1 : round2 (-4 : ℚ) = -4 := by
    have h : roundHalfEven ((-4:ℚ) * 100) = -400 :=
      roundHalfEven_eq_of_lt (by norm_num) (by norm_num)
    unfold round2
    rw [h]
    norm_num
  have hr2 : round2 (3 : ℚ) = 3 := by
    have h : roundHalfEven ((3:ℚ) * 100) = 300 :=
      roundHalfEven_eq_of_lt (by norm_num) (by norm_num)
    unfold round2
    rw [h]
    norm_num
  have heq1 : calculate_hazard_score (10, 0, 0, 10) (100, 100) "drone"
      = some ⟨-4, "LOW", "8m+", "#00FF00", "SAFE TO PROCEED", 1⟩ := by
    simp only [calculate_hazard_score, if_neg h0, hfs1]
    rw [hr1]
    norm_num [hazard_level, distance_of, color_of, action_of, hl, hm]
  have heq2 : calculate_hazard_score (0, 0, 0, 10) (100, 100) "drone"
      = some ⟨3, "LOW", "8m+", "#00FF00", "SAFE TO PROCEED", 1⟩ := by
    simp only [calculate_hazard_score, if_neg h0, hfs2]
    rw [hr2]
    norm_num [hazard_level, distance_of, color_of, action_of, hl, hm]
  refine ⟨heq1, heq2, ?_⟩
  rw [heq1, heq2]
  simp only [ne_eq, Option.some.injEq, HazardRecord.mk.injEq, not_and]
  intro h
  exact absurd h (by norm_num)

/-- C7 (amended): `bbox_area = (x2-x1)*(y2-y1)` with no clamping.  A box
with negative width (and positive height) inside a valid image is still
accepted — not rejected — but its signed area strictly LOWERS the
pre-rounding final score below that of the zero-area box with the same
bottom edge, rather than matching it. -/
theorem negative_dimension_lowers_score (x1 y1 x2 y2 ih iw : ℚ) (c : String)
    (hx : x2 < x1) (hy : y1 < y2) (hy0 : 0 ≤ y2) (hyh : y2 ≤ ih)
    (hh : 0 < ih) (hw : 0 < iw) :
    (calculate_hazard_score (x1, y1, x2, y2) (ih, iw) c).isSome = true ∧
    final_score x1 y1 x2 y2 ih iw c < final_score x1 y1 x1 y2 ih iw c := by
  have h0 : ih * iw ≠ 0 := by positivity
  refine ⟨by simp [calculate_hazard_score, h0], ?_⟩
  have hm := class_multipliers_pos (pyLower c)
  have hm13 := class_multipliers_le (pyLower c)
  have hbp0 : 0 ≤ y2 / ih := div_nonneg hy0 hh.le
  have hbp1 : y2 / ih ≤ 1 := by rw [div_le_one hh]; exact hyh
  have hneg : ((x2 - x1) * (y2 - y1)) / (ih * iw) < 0 :=
    div_neg_of_neg_of_pos
      (mul_neg_of_neg_of_pos (by linarith) (by linarith)) (by positivity)
  unfold final_score base_score
  have hz : ((x1 - x1) * (y2 - y1)) / (ih * iw) = 0 := by
    rw [sub_self, zero_mul, zero_div]
  rw [hz]
  have hb2 : min ((0:ℚ) * 700 + (y2 / ih) * 30) 100 = (y2 / ih) * 30 := by
    rw [zero_mul, zero_add]
    exact min_eq_left (by linarith)
  have hb1 : min ((((x2 - x1) * (y2 - y1)) / (ih * iw)) * 700
      + (y2 / ih) * 30) 100
      = (((x2 - x1) * (y2 - y1)) / (ih * iw)) * 700 + (y2 / ih) * 30 :=
    min_eq_left (by nlinarith)
  rw [hb1, hb2]
  have hlt : (((x2 - x1) * (y2 - y1)) / (ih * iw)) * 700 + (y2 / ih) * 30
      < (y2 / ih) * 30 := by nlinarith
  have hle2 : ((y2 / ih) * 30) * class_multipliers (pyLower c) ≤ 100 := by
    nlinarith
  rw [min_eq_left hle2, min_eq_left (by nlinarith)]
  have := mul_lt_mul_of_pos_right hlt hm
  linarith

/-- Witness for the amended C7 at the input of the counterexample. -/
theorem negative_dimension_lowers_score_witness :
    (calculate_hazard_score (10, 0, 0, 10) (100, 100) "drone").isSome = true ∧
    final_score 10 0 0 10 100 100 "drone"
      < final_score 10 0 10 10 100 100 "drone" :=
  negative_dimension_lowers_score 10 0 0 10 100 100 "drone" (by norm_num)
    (by norm_num) (by norm_num) (by norm_num) (by norm_num) (by norm_num)

/-- C8: a degenerate (zero-width or zero-height) box inside an image of
positive area is legal — `calculate_hazard_score` succeeds — and scores to
minimum: its level is LOW and its score is a lower bound on the score of
every box with the same bottom edge `y2` (the zero area kills the dominant
size term, leaving only the position term). -/
theorem degenerate_box_minimum_score (x1 y1 x2 y2 ih iw : ℚ) (c : String)
    (hdeg : x1 = x2 ∨ y1 = y2)
    (hy0 : 0 ≤ y2) (hyh : y2 ≤ ih) (hh : 0 < ih) (hw : 0 < iw) :
    ∃ r, calculate_hazard_score (x1, y1, x2, y2) (ih, iw) c = some r ∧
      r.level = "LOW" ∧
      (∀ x1' y1' x2' (r' : HazardRecord), x1' ≤ x2' → y1' ≤ y2 →
        calculate_hazard_score (x1', y1', x2', y2) (ih, iw) c = some r' →
        r.score ≤ r'.score) := by
  have h0 : ih * iw ≠ 0 := by positivity
  have hm := class_multipliers_pos (pyLower c)
  have hm13 := class_multipliers_le (pyLower c)
  have hbp0 : 0 ≤ y2 / ih := div_nonneg hy0 hh.le
  have hbp1 : y2 / ih ≤ 1 := by rw [div_le_one hh]; exact hyh
  have harea : (x2 - x1) * (y2 - y1) = 0 := by
    rcases hdeg with h | h <;> rw [h] <;> ring
  have hfsdeg : final_score x1 y1 x2 y2 ih iw c
      = ((y2 / ih) * 30) * class_multipliers (pyLower c) := by
    unfold final_score base_score
    rw [harea, zero_div, zero_mul, zero_add]
    rw [min_eq_left (show (y2 / ih) * 30 ≤ (100:ℚ) by linarith)]
    rw [min_eq_left (show ((y2 / ih) * 30) * class_multipliers (pyLower c)
      ≤ (100:ℚ) by nlinarith)]
  have heq : calculate_hazard_score (x1, y1, x2, y2) (ih, iw) c =
      some ⟨round2 (final_score x1 y1 x2 y2 ih iw c),
            hazard_level (final_score x1 y1 x2 y2 ih iw c),
            distance_of (final_score x1 y1 x2 y2 ih iw c),
            color_of (final_score x1 y1 x2 y2 ih iw c),
            action_of (final_score x1 y1 x2 y2 ih iw c),
            class_multipliers (pyLower c)⟩ := by
    simp [calculate_hazard_score, h0]
  refine ⟨_, heq, ?_, ?_⟩
  · show hazard_level (final_score x1 y1 x2 y2 ih iw c) = "LOW"
    have h40 : final_score x1 y1 x2 y2 ih iw c < 40 := by
      rw [hfsdeg]; nlinarith
    unfold hazard_level
    split_ifs with ha hb hc <;> first | rfl | (exfalso; linarith)
  · intro x1' y1' x2' r' hx' hy' heq'
    have heqr' : calculate_hazard_score (x1', y1', x2', y2) (ih, iw) c =
        some ⟨round2 (final_score x1' y1' x2' y2 ih iw c),
              hazard_level (final_score x1' y1' x2' y2 ih iw c),
              distance_of (final_score x1' y1' x2' y2 ih iw c),
              color_of (final_score x1' y1' x2' y2 ih iw c),
              action_of (final_score x1' y1' x2' y2 ih iw c),
              class_multipliers (pyLower c)⟩ := by
      simp [calculate_hazard_score, h0]
    rw [heqr'] at heq'
    injection heq' with heq'
    rw [← heq']
    show round2 (final_score x1 y1 x2 y2 ih iw c)
      ≤ round2 (final_score x1' y1' x2' y2 ih iw c)
    apply round2_mono
    have hsr' : 0 ≤ ((x2' - x1') * (y2 - y1')) / (ih * iw) :=
      div_nonneg (mul_nonneg (by linarith) (by linarith)) (by positivity)
    rw [hfsdeg]
    unfold final_score base_score
    have hbase : (y2 / ih) * 30
        ≤ min ((((x2' - x1') * (y2 - y1')) / (ih * iw)) * 700
            + (y2 / ih) * 30) 100 :=
      le_min (by nlinarith) (by linarith)
    apply le_min _ (by nlinarith)
    exact mul_le_mul_of_nonneg_right hbase hm.le

/-- Witness for C8 at a zero-width box `(5, 2, 5, 10)` in a `100×100`
image, compared against the full box with the same bottom edge. -/
theorem degenerate_box_minimum_score_witness :
    ∃ r, calculate_hazard_score (5, 2, 5, 10) (100, 100) "person" = some r ∧
      r.level = "LOW" ∧
      (∀ x1' y1' x2' (r' : HazardRecord), x1' ≤ x2' → y1' ≤ (10:ℚ) →
        calculate_hazard_score (x1', y1', x2', 10) (100, 100) "person"
          = some r' →
        r.score ≤ r'.score) :=
  degenerate_box_minimum_score 5 2 5 10 100 100 "person" (Or.inl rfl)
    (by norm_num) (by norm_num) (by norm_num) (by norm_num)

/-- C10: `calculate_zone_risk` is order-insensitive — permuting a list of
well-formed detection records leaves the entire result dict unchanged
(same overall risk, max score, all counts, total and recommendation). -/
theorem zone_risk_perm_invariant (ds ds2 : List (List (String × PyVal)))
    (shape : ℚ × ℚ)
    (hok : ∀ d ∈ ds, (get_hazard_score d).isOk = true)
    (hp : ds.Perm ds2) :
    calculate_zone_risk ds shape = calculate_zone_risk ds2 shape := by
  have hok2 : ∀ d ∈ ds2, (get_hazard_score d).isOk = true :=
    fun d hd => hok d (hp.mem_iff.mpr hd)
  have hs : get_scores ds = .ok (ds.map score_of) := get_scores_eq_map hok
  have hs2 : get_scores ds2 = .ok (ds2.map score_of) := get_scores_eq_map hok2
  have hmp : (ds.map score_of).Perm (ds2.map score_of) := hp.map score_of
  cases ds with
  | nil =>
    cases ds2 with
    | nil => rfl
    | cons d2 rest2 => simp at hp
  | cons d rest =>
    cases ds2 with
    | nil => simp at hp
    | cons d2 rest2 =>
      have heq1 := zone_risk_cons_eq d rest shape (score_of d)
        (rest.map score_of) (by simpa using hs)
      have heq2 := zone_risk_cons_eq d2 rest2 shape (score_of d2)
        (rest2.map score_of) (by simpa using hs2)
      rw [heq1, heq2]
      have hperm : ((score_of d) :: rest.map score_of).Perm
          ((score_of d2) :: rest2.map score_of) := by simpa using hmp
      have hcC := hperm.countP_eq (fun s => decide (80 ≤ s))
      have hcH := hperm.countP_eq (fun s => decide (60 ≤ s ∧ s < 80))
      have hcM := hperm.countP_eq (fun s => decide (40 ≤ s ∧ s < 60))
      have hmax := foldl_max_perm hperm
      have hlen := hp.length_eq
      rw [hcC, hcH, hcM, hmax, hlen]

/-- Witness for C10: swapping two detections (scores 85 and 30) leaves the
zone-risk result unchanged. -/
theorem zone_risk_perm_invariant_witness :
    calculate_zone_risk
        [[("hazard_score", PyVal.num 85)], [("hazard_score", PyVal.num 30)]]
        (100, 100)
      = calculate_zone_risk
        [[("hazard_score", PyVal.num 30)], [("hazard_score", PyVal.num 85)]]
        (100, 100) :=
  zone_risk_perm_invariant _ _ (100, 100)
    (by
      intro d hd
      simp only [List.mem_cons, List.not_mem_nil, or_false] at hd
      rcases hd with rfl | rfl <;> rfl)
    (List.Perm.swap _ _ _)

/-- C5 counterexample: a record produced by `calculate_hazard_score` stores
its score under the key `"score"`, but `calculate_zone_risk` reads
`d["hazard_score"]`; feeding the produced record directly to the aggregator
raises `KeyError` instead of succeeding. -/
theorem zone_risk_score_key_mismatch_cex :
    (calculate_hazard_score (0, 0, 100, 100) (1000, 1000) "person").map
        (fun r => calculate_zone_risk [hazard_record_dict r] (1000, 1000))
      = some (.error "KeyError: hazard_score") := by
  have h0 : ¬ ((1000:ℚ) * 1000 = 0) := by norm_num
  have heq : calculate_hazard_score (0, 0, 100, 100) (1000, 1000) "person"
      = some ⟨round2 (final_score 0 0 100 100 1000 1000 "person"),
              hazard_level (final_score 0 0 100 100 1000 1000 "person"),
              distance_of (final_score 0 0 100 100 1000 1000 "person"),
              color_of (final_score 0 0 100 100 1000 1000 "person"),
              action_of (final_score 0 0 100 100 1000 1000 "person"),
              class_multipliers (pyLower "person")⟩ := by
    simp [calculate_hazard_score, h0]
  rw [heq]
  rfl

/-- C5 (amended): `calculate_zone_risk` consumes exactly the
`"hazard_score"` entry of each record.  Records produced by
`calculate_hazard_score` lack that key (theirs is `"score"`), so a
non-empty list of them always errors; dicts that do carry a numeric
`"hazard_score"` succeed, and the result depends only on those score
values (and the list length). -/
theorem zone_risk_hazard_score_dependence :
    (∀ (rs : List HazardRecord) (shape : ℚ × ℚ), rs ≠ [] →
      calculate_zone_risk (rs.map hazard_record_dict) shape
        = .error "KeyError: hazard_score") ∧
    (∀ (ds : List (List (String × PyVal))) (shape : ℚ × ℚ),
      (∀ d ∈ ds, ∃ q, dictGet d "hazard_score" = some (.num q)) →
      (calculate_zone_risk ds shape).isOk = true) ∧
    (∀ (ds ds2 : List (List (String × PyVal))) (shape : ℚ × ℚ),
      get_scores ds = get_scores ds2 →
      calculate_zone_risk ds shape = calculate_zone_risk ds2 shape) := by
  refine ⟨?_, ?_, ?_⟩
  · intro rs shape hne
    cases rs with
    | nil => exact absurd rfl hne
    | cons r rest =>
      have hged : get_hazard_score (hazard_record_dict r)
          = .error "KeyError: hazard_score" := rfl
      simp only [List.map_cons, calculate_zone_risk, List.isEmpty_cons,
        Bool.false_eq_true, if_false, get_scores, hged]
  · intro ds shape hwf
    have hok : ∀ d ∈ ds, (get_hazard_score d).isOk = true := by
      intro d hd
      obtain ⟨q, hq⟩ := hwf d hd
      simp [get_hazard_score, hq, Except.isOk, Except.toBool]
    have hs := get_scores_eq_map hok
    cases ds with
    | nil => rfl
    | cons d rest =>
      have heq := zone_risk_cons_eq d rest shape (score_of d)
        (rest.map score_of) (by simpa using hs)
      rw [heq]
      rfl
  · intro ds ds2 shape hgs
    cases hcase : get_scores ds with
    | error e =>
      have hgs2 : get_scores ds2 = .error e := by rw [← hgs, hcase]
      cases ds with
      | nil => simp [get_scores] at hcase
      | cons d rest =>
        cases ds2 with
        | nil => simp [get_scores] at hgs2
        | cons d2 rest2 =>
          simp only [calculate_zone_risk, List.isEmpty_cons,
            Bool.false_eq_true, if_false, hcase, hgs2]
    | ok scores =>
      have h2 : get_scores ds2 = .ok scores := by rw [← hgs, hcase]
      cases scores with
      | nil =>
        have l1 := get_scores_length hcase
        have l2 := get_scores_length h2
        cases ds with
        | cons d rest => simp at l1
        | nil =>
          cases ds2 with
          | cons d2 rest2 => simp at l2
          | nil => rfl
      | cons s0 srest =>
        cases ds with
        | nil =>
          have l1 := get_scores_length hcase
          simp at l1
        | cons d rest =>
          cases ds2 with
          | nil =>
            have l2 := get_scores_length h2
            simp at l2
          | cons d2 rest2 =>
            rw [zone_risk_cons_eq d rest shape s0 srest hcase,
              zone_risk_cons_eq d2 rest2 shape s0 srest h2]
            have hlen : (d :: rest).length = (d2 :: rest2).length := by
              rw [← get_scores_length hcase, ← get_scores_length h2]
            rw [hlen]

/-- Witness for the amended C5: a concrete produced record fails, a
concrete well-formed detection dict succeeds, and two dicts with the same
`"hazard_score"` value give the same result. -/
theorem zone_risk_hazard_score_dependence_witness :
    calculate_zone_risk
        [hazard_record_dict ⟨12, "LOW", "8m+", "#00FF00", "SAFE TO PROCEED",
          1.2⟩] (100, 100)
      = .error "KeyError: hazard_score" ∧
    (calculate_zone_risk [[("hazard_score", PyVal.num 85)]] (100, 100)).isOk
      = true ∧
    calculate_zone_risk [[("hazard_score", PyVal.num 85)]] (100, 100)
      = calculate_zone_risk
          [[("hazard_score", PyVal.num 85), ("frame", PyVal.num 7)]]
          (100, 100) := by
  refine ⟨?_, ?_, ?_⟩
  · exact zone_risk_hazard_score_dependence.1
      [⟨12, "LOW", "8m+", "#00FF00", "SAFE TO PROCEED", 1.2⟩] (100, 100)
      (by simp)
  · exact zone_risk_hazard_score_dependence.2.1 _ _
      (by
        intro d hd
        simp only [List.mem_cons, List.not_mem_nil, or_false] at hd
        subst hd
        exact ⟨85, rfl⟩)
  · exact zone_risk_hazard_score_dependence.2.2 _ _ _ rfl

/-- C9 counterexample: the alert strings carry emoji prefixes (`⚠️ `,
`⚡ `, `✓ `) that the strings of the claim omit: on CRITICAL the function
returns the prefixed string, not the claimed one. -/
theorem alert_message_emoji_cex :
    generate_alert_message [("overall_risk", .str "CRITICAL")]
        = .ok "⚠️ CRITICAL ALERT: Object detected in immediate vicinity! STOP DUMPING!" ∧
    generate_alert_message [("overall_risk", .str "CRITICAL")]
        ≠ .ok "CRITICAL ALERT: Object detected in immediate vicinity! STOP DUMPING!" := by
  constructor
  · rfl
  · intro h
    rw [show generate_alert_message [("overall_risk", .str "CRITICAL")]
        = Except.ok "⚠️ CRITICAL ALERT: Object detected in immediate vicinity! STOP DUMPING!"
      from rfl] at h
    injection h with h2
    exact absurd h2 (by decide)

/-- C9 (amended): `generate_alert_message` is a pure lookup on the
`overall_risk` entry returning the five fixed driver strings — each with
its emoji prefix — and `"Status unknown"` for every other value. -/
theorem alert_message_table :
    generate_alert_message [("overall_risk", .str "CRITICAL")]
        = .ok "⚠️ CRITICAL ALERT: Object detected in immediate vicinity! STOP DUMPING!" ∧
    generate_alert_message [("overall_risk", .str "HIGH")]
        = .ok "⚠️ HIGH RISK: Object approaching danger zone. Proceed with extreme caution." ∧
    generate_alert_message [("overall_risk", .str "MEDIUM")]
        = .ok "⚡ CAUTION: Object detected nearby. Monitor before dumping." ∧
    generate_alert_message [("overall_risk", .str "LOW")]
        = .ok "✓ LOW RISK: Area monitored. Safe to proceed." ∧
    generate_alert_message [("overall_risk", .str "SAFE")]
        = .ok "✓ SAFE: No objects detected in monitoring zones." ∧
    (∀ v : String, v ∉ ["CRITICAL", "HIGH", "MEDIUM", "LOW", "SAFE"] →
      generate_alert_message [("overall_risk", PyVal.str v)]
        = .ok "Status unknown") := by
  refine ⟨rfl, rfl, rfl, rfl, rfl, ?_⟩
  intro v hv
  simp only [List.mem_cons, List.not_mem_nil, or_false, not_or] at hv
  obtain ⟨h1, h2, h3, h4, h5⟩ := hv
  simp [generate_alert_message, dictGet, alert_for, h1, h2, h3, h4, h5]

/-- Witness for the amended C9 at the unknown value `"UNKNOWN"`. -/
theorem alert_message_table_witness :
    generate_alert_message [("overall_risk", PyVal.str "UNKNOWN")]
      = .ok "Status unknown" :=
  alert_message_table.2.2.2.2.2 "UNKNOWN" (by decide)

end DumperSafety
